import Mathlib

/-!
Verification of the result-normalization pipeline and error handling of the
perp repository (`src/mcp_perplexity_server.py`, `src/perplexity_search.py`,
`src/perplexity_search_simple.py`).

The Python code is shallowly embedded: JSON values become the inductive `JVal`,
Python dicts become association lists `List (String × JVal)` in insertion
order, Python `Optional` fields become `Option`, Python truthiness on optional
strings becomes `truthy`, and the `search_web` tool's processing loop becomes
`normalizeResults` (one `map`/`filterMap` per output collection, mirroring the
per-item appends of the loop in input order).
-/

/-- A JSON value, the codomain of the Python dicts built by the code. -/
inductive JVal where
  | null : JVal
  | str : String → JVal
  | num : Nat → JVal
  | arr : List JVal → JVal
  | obj : List (String × JVal) → JVal
deriving Repr

/-- Lookup of a key in a dict modelled as an association list
(the dicts built by the code never assign the same key twice). -/
def getKey (d : List (String × JVal)) (k : String) : Option JVal :=
  match d with
  | [] => none
  | (k2, v) :: rest => if k2 == k then some v else getKey rest k

/-- Python truthiness of an optional string: `None` and `""` are falsy
(`if not api_key`, `if date`, `if chunk_text` in the source). -/
def truthy : Option String → Bool
  | none => false
  | some s => !(s == "")

/-- Python truthiness of an optional list (`if search_domain_filter`,
`if r.chunks`): `None` and `[]` are falsy. -/
def truthyList {α : Type} : Option (List α) → Bool
  | none => false
  | some l => !l.isEmpty

/-- Python `a or b` on optional strings: `a` if truthy, else `b`
(`result.get("date") or result.get("last_updated")`). -/
def pyOr (a b : Option String) : Option String :=
  if truthy a then a else b

/-- Convert a Python optional string to the JSON value stored in a dict:
`None` serializes as `null`, a string as itself. -/
def jOfOpt : Option String → JVal
  | none => JVal.null
  | some s => JVal.str s

/-- Accumulator-based whitespace splitter: `pyWords cur l` collects the
maximal runs of non-whitespace characters of `l`, `cur` being the (reversed)
run in progress.  Empty runs are dropped, matching Python `str.split()`
with no separator argument. -/
def pyWords : List Char → List Char → List (List Char)
  | cur, [] => if cur.isEmpty then [] else [cur.reverse]
  | cur, c :: cs =>
    if c.isWhitespace then
      if cur.isEmpty then pyWords [] cs else cur.reverse :: pyWords [] cs
    else pyWords (c :: cur) cs

/-- Python `chunk_text.split()`: split on whitespace runs, no empty tokens. -/
def pySplit (s : String) : List String :=
  (pyWords [] s.data).map (fun l => String.mk l)

/-- Python `len(chunk_text.split())`, the approximate token count of the code. -/
def chunkTokens (s : String) : Nat :=
  (pySplit s).length

/-- One raw result of the upstream JSON payload (`data["results"][i]` in
`mcp_perplexity_server.py`): every field optional, `none` models an absent
key (`result.get(...)`). -/
structure RawResult where
  title : Option String
  url : Option String
  snippet : Option String
  date : Option String
  last_updated : Option String
deriving Repr

/-- The `source` dict built per raw result
(`mcp_perplexity_server.py` lines 114–123): `title` defaults to
`"Untitled"`, `url` to `""`, and the `date` key is added only when
`result.get("date") or result.get("last_updated")` is truthy. -/
def mkSource (r : RawResult) : List (String × JVal) :=
  let date := pyOr r.date r.last_updated
  [("title", JVal.str (r.title.getD "Untitled")),
   ("url", JVal.str (r.url.getD ""))]
  ++ (if truthy date then [("date", jOfOpt date)] else [])

/-- The `chunk_data` dict built per raw result when `result.get("snippet")`
is truthy (`mcp_perplexity_server.py` lines 126–142), `none` when it is not
(no append to `chunks`). -/
def mkChunk? (r : RawResult) : Option (List (String × JVal)) :=
  let date := pyOr r.date r.last_updated
  if truthy r.snippet then
    let s := r.snippet.getD ""
    some ([("title", JVal.str (r.title.getD "Untitled")),
           ("url", JVal.str (r.url.getD "")),
           ("source", JVal.str (r.url.getD "")),
           ("chunk", JVal.str s),
           ("chunk_length", JVal.num s.length),
           ("chunk_tokens", JVal.num (chunkTokens s))]
      ++ (if truthy date then [("date", jOfOpt date)] else []))
  else none

/-- The `result_item` dict built unconditionally per raw result
(`mcp_perplexity_server.py` lines 145–156): `chunk` and `date` keys always
present (possibly `null`), `chunk_length`/`chunk_tokens` added only when the
snippet is truthy. -/
def mkResultItem (r : RawResult) : List (String × JVal) :=
  let date := pyOr r.date r.last_updated
  [("title", JVal.str (r.title.getD "Untitled")),
   ("url", JVal.str (r.url.getD "")),
   ("chunk", jOfOpt r.snippet),
   ("date", jOfOpt date)]
  ++ (if truthy r.snippet then
        [("chunk_length", JVal.num ((r.snippet.getD "").length)),
         ("chunk_tokens", JVal.num (chunkTokens (r.snippet.getD "")))]
      else [])

/-- The dict returned by `search_web` after processing
(`mcp_perplexity_server.py` lines 158–165). -/
structure NormalizedBundle where
  query : String
  sources : List (List (String × JVal))
  chunks : List (List (String × JVal))
  results : List (List (String × JVal))
  total_sources : Nat
  total_chunks : Nat
deriving Repr

/-- The processing loop of `search_web` (`mcp_perplexity_server.py` lines
106–165): one `source` and one `result_item` appended per raw result in
input order, one `chunk_data` appended exactly when the snippet is truthy,
and the totals computed as `len(sources)` / `len(chunks)`. -/
def normalizeResults (query : String) (results : List RawResult) : NormalizedBundle :=
  let sources := results.map mkSource
  let chunks := results.filterMap mkChunk?
  let processed_results := results.map mkResultItem
  { query := query
    sources := sources
    chunks := chunks
    results := processed_results
    total_sources := sources.length
    total_chunks := chunks.length }

/-- One result object of the Perplexity SDK as consumed by
`search_perplexity` (`perplexity_search.py` lines 108–163): `title` and
`url` are plain attribute reads, the remaining fields are probed with
`getattr`/`hasattr` and default to absent.  The `chunks` attribute is
modelled in its list form (the code's non-list branch stringifies a value
the SDK does not produce). -/
structure SdkResult where
  title : String
  url : String
  date : Option String
  last_updated : Option String
  chunks : Option (List String)
  chunk : Option String
  snippet : Option String
deriving Repr

/-- The excerpt-text resolution of `search_perplexity`
(`perplexity_search.py` lines 122–138): a truthy `chunks` list is joined
with blank lines after dropping falsy elements, else a truthy `chunk`
attribute, else a truthy `snippet` attribute, else `None`. -/
def sdkChunkText (r : SdkResult) : Option String :=
  if truthyList r.chunks then
    some (String.intercalate "\n\n" ((r.chunks.getD []).filter (fun c => !(c == ""))))
  else if truthy r.chunk then r.chunk
  else if truthy r.snippet then r.snippet
  else none

/-- The `source` dict of `search_perplexity` (`perplexity_search.py` lines
109–115): no defaulting on `title`/`url`, `date` key added only when
`getattr(r, "date", None) or getattr(r, "last_updated", None)` is truthy. -/
def sdkSource (r : SdkResult) : List (String × JVal) :=
  let date := pyOr r.date r.last_updated
  [("title", JVal.str r.title), ("url", JVal.str r.url)]
  ++ (if truthy date then [("date", jOfOpt date)] else [])

/-- The `chunk_data` dict of `search_perplexity` (`perplexity_search.py`
lines 141–150), built only when the resolved excerpt text is truthy. -/
def sdkChunk? (r : SdkResult) : Option (List (String × JVal)) :=
  if truthy (sdkChunkText r) then
    let s := (sdkChunkText r).getD ""
    some [("title", JVal.str r.title),
          ("url", JVal.str r.url),
          ("source", JVal.str r.url),
          ("chunk", JVal.str s),
          ("chunk_length", JVal.num s.length),
          ("chunk_tokens", JVal.num (chunkTokens s))]
  else none

/-- The `result_item` dict of `search_perplexity` (`perplexity_search.py`
lines 152–163). -/
def sdkResultItem (r : SdkResult) : List (String × JVal) :=
  let date := pyOr r.date r.last_updated
  [("title", JVal.str r.title),
   ("url", JVal.str r.url),
   ("chunk", jOfOpt (sdkChunkText r)),
   ("date", jOfOpt date)]
  ++ (if truthy (sdkChunkText r) then
        [("chunk_length", JVal.num (((sdkChunkText r).getD "").length)),
         ("chunk_tokens", JVal.num (chunkTokens ((sdkChunkText r).getD "")))]
      else [])

/-- The dict returned by `search_perplexity` (`perplexity_search.py` lines
165–171): keys `sources`, `chunks`, `results`, `query`,
`_inspection_info` — and no `total_sources` / `total_chunks` keys.  The
`_inspection_info` value is `None` when `search.results` is empty, as in the
source; for non-empty results it is a debug-only attribute listing of the
SDK object, not representable here and modelled as `null` as well. -/
def sdkReturn (query : String) (rs : List SdkResult) : List (String × JVal) :=
  [("sources", JVal.arr (rs.map (fun r => JVal.obj (sdkSource r)))),
   ("chunks", JVal.arr (rs.filterMap (fun r => (sdkChunk? r).map JVal.obj))),
   ("results", JVal.arr (rs.map (fun r => JVal.obj (sdkResultItem r)))),
   ("query", JVal.str query),
   ("_inspection_info", JVal.null)]

/-- Outcome of the HTTP POST made through `httpx` as seen by the `except`
clauses of `search_web`: a 2xx response with parsed `results`, an
`HTTPStatusError` raised by `raise_for_status` carrying status code and body
text, or a `RequestError` carrying the network failure description. -/
inductive TransportOutcome where
  | success : List RawResult → TransportOutcome
  | httpStatusError : Nat → String → TransportOutcome
  | requestError : String → TransportOutcome

/-- Message of the `ValueError` raised when `PERPLEXITY_API_KEY` is unset
(`mcp_perplexity_server.py` lines 58–61). -/
def configErrorMsg : String :=
  "PERPLEXITY_API_KEY environment variable is not set. Please set it in your .env file or environment."

/-- Message raised for an upstream 404 (`mcp_perplexity_server.py` lines 97–100). -/
def notEnabledMsg : String :=
  "Search API is not enabled for your API key or account. Please check your Perplexity API subscription."

/-- Message raised for any other non-2xx upstream status
(`mcp_perplexity_server.py` line 101), embedding status code and body text. -/
def apiErrorMsg (code : Nat) (body : String) : String :=
  "Perplexity API error: " ++ toString code ++ " - " ++ body

/-- Message raised for a network-level failure (`mcp_perplexity_server.py` line 103). -/
def networkErrorMsg (m : String) : String :=
  "Network error calling Perplexity API: " ++ m

/-- The request payload dict (`mcp_perplexity_server.py` lines 64–78):
required keys first, then `max_tokens` when not `None`, then the two filters
when truthy. -/
def buildPayload (query : String) (max_results : Nat) (max_tokens : Option Nat)
    (max_tokens_per_page : Nat) (search_domain_filter : Option (List String))
    (search_recency_filter : Option String) : List (String × JVal) :=
  [("query", JVal.str query),
   ("max_results", JVal.num max_results),
   ("max_tokens_per_page", JVal.num max_tokens_per_page)]
  ++ (match max_tokens with
      | some n => [("max_tokens", JVal.num n)]
      | none => [])
  ++ (if truthyList search_domain_filter then
        [("search_domain_filter", JVal.arr ((search_domain_filter.getD []).map JVal.str))]
      else [])
  ++ (if truthy search_recency_filter then
        [("search_recency_filter", JVal.str (search_recency_filter.getD ""))]
      else [])

/-- The whole `search_web` tool (`mcp_perplexity_server.py` lines 24–165):
`api_key` is the value of `os.getenv("PERPLEXITY_API_KEY")`, `transport` is
the HTTP collaborator (invoked only after the credential check succeeds),
and errors are the raised exception messages. -/
def search_web (api_key : Option String) (query : String) (max_results : Nat)
    (max_tokens : Option Nat) (max_tokens_per_page : Nat)
    (search_domain_filter : Option (List String)) (search_recency_filter : Option String)
    (transport : List (String × JVal) → TransportOutcome) :
    Except String NormalizedBundle :=
  if truthy api_key then
    let payload := buildPayload query max_results max_tokens max_tokens_per_page
      search_domain_filter search_recency_filter
    match transport payload with
    | TransportOutcome.success data => Except.ok (normalizeResults query data)
    | TransportOutcome.httpStatusError code body =>
        if code == 404 then Except.error notEnabledMsg
        else Except.error (apiErrorMsg code body)
    | TransportOutcome.requestError m => Except.error (networkErrorMsg m)
  else
    Except.error configErrorMsg

/-! ### Helper lemmas -/

/-- A dict built as cons cells yields each key by one-step lookup. -/
lemma getKey_mkSource_date (r : RawResult) :
    getKey (mkSource r) "date"
      = (if truthy (pyOr r.date r.last_updated)
          then some (jOfOpt (pyOr r.date r.last_updated)) else none) := by
  cases h : truthy (pyOr r.date r.last_updated) <;> simp only [mkSource, h] <;> rfl

/-- A chunk dict exists exactly when the snippet is truthy. -/
lemma mkChunk_isSome (r : RawResult) : (mkChunk? r).isSome = truthy r.snippet := by
  cases h : truthy r.snippet <;> simp [mkChunk?, h]

/-- The number of emitted chunk dicts counts the raw results with truthy
snippet. -/
lemma length_chunks_countP (rs : List RawResult) :
    (rs.filterMap mkChunk?).length = rs.countP (fun r => truthy r.snippet) := by
  induction rs with
  | nil => rfl
  | cons r rs ih =>
    cases h : truthy r.snippet <;>
      simp [List.filterMap_cons, mkChunk?, h, List.countP_cons, ih]

/-- The accumulator-based splitter emits at most one word per character,
plus one for a pending accumulator. -/
lemma pyWords_length_le (l : List Char) :
    ∀ cur, (pyWords cur l).length ≤ l.length + (if cur.isEmpty then 0 else 1) := by
  induction l with
  | nil => intro cur; cases cur <;> simp [pyWords]
  | cons c cs ih =>
    intro cur
    by_cases hw : c.isWhitespace
    · have h := ih []
      simp at h
      cases cur <;> simp [pyWords, hw] <;> omega
    · have h := ih (c :: cur)
      simp at h
      simp [pyWords, hw]
      split <;> omega

/-- Python `len(s.split())` is at most `len(s)`. -/
lemma chunkTokens_le_length (s : String) : chunkTokens s ≤ s.length := by
  have h := pyWords_length_le s.data []
  simp at h
  have h2 : chunkTokens s = (pyWords [] s.data).length := by
    simp [chunkTokens, pySplit]
  have h3 : s.length = s.data.length := rfl
  omega

/-- A non-empty string has positive length. -/
lemma one_le_length_of_ne_empty (s : String) (h : s ≠ "") : 1 ≤ s.length := by
  rcases hs : s.data with _ | ⟨c, cs⟩
  · exact absurd (by apply String.ext; simp [hs]) h
  · simp [String.length, hs]

/-- The generic upstream-error message never coincides with the 404 message
(they start with different characters). -/
lemma apiErrorMsg_ne_notEnabledMsg (code : Nat) (body : String) :
    apiErrorMsg code body ≠ notEnabledMsg := by
  intro h
  have hd : (apiErrorMsg code body).data = notEnabledMsg.data := congrArg String.data h
  simp only [apiErrorMsg, String.data_append] at hd
  have hS : notEnabledMsg.data
      = 'S' :: "earch API is not enabled for your API key or account. Please check your Perplexity API subscription.".data := rfl
  rw [hS] at hd
  simp only [List.cons_append] at hd
  injection hd with h1 _
  exact absurd h1 (by decide)

/-! ### Claim theorems -/

/-- C1: for every query and every sequence of raw results (including the
empty one), the bundle returned by `search_web` has
`len(sources) == len(results) == len(raw_results)`, and the i-th source and
i-th result item are derived from the i-th raw result — order-preserving,
no sorting, no deduplication. -/
theorem normalizeResults_parallel_and_ordered (q : String) (rs : List RawResult) :
    search_web (some "key") q 10 none 2048 none none
        (fun _ => TransportOutcome.success rs)
      = Except.ok (normalizeResults q rs) ∧
    (normalizeResults q rs).sources.length = rs.length ∧
    (normalizeResults q rs).results.length = rs.length ∧
    ∀ i : Nat, (normalizeResults q rs).sources[i]? = (rs[i]?).map mkSource ∧
      (normalizeResults q rs).results[i]? = (rs[i]?).map mkResultItem := by
  refine ⟨rfl, by simp [normalizeResults], by simp [normalizeResults], fun i => ⟨?_, ?_⟩⟩ <;>
    simp [normalizeResults, List.getElem?_map]

/-- C2: a chunk dict is appended exactly when the raw result's snippet is
truthy (non-empty), hence `len(chunks)` counts the truthy snippets and
`len(chunks) <= len(results)`. -/
theorem chunks_iff_truthy_snippet (q : String) (rs : List RawResult) :
    (∀ r : RawResult, (mkChunk? r).isSome = truthy r.snippet) ∧
    (normalizeResults q rs).chunks.length = rs.countP (fun r => truthy r.snippet) ∧
    (normalizeResults q rs).chunks.length ≤ (normalizeResults q rs).results.length := by
  refine ⟨mkChunk_isSome, ?_, ?_⟩
  · simpa [normalizeResults] using length_chunks_countP rs
  · have h1 := length_chunks_countP rs
    have h2 := List.countP_le_length (fun r => truthy r.snippet) (l := rs)
    simp only [normalizeResults, List.length_map]
    omega

/-- C3 (amended): in the bundle returned by the `search_web` tool,
`total_sources` and `total_chunks` are recomputed as the lengths of the
output collections (equivalently, derived from the input alone), and are
not copied from the upstream payload; the SDK-based `search_perplexity`
returns no such fields at all (see the counterexample theorem). -/
theorem search_web_totals_recomputed (q : String) (rs : List RawResult) :
    (normalizeResults q rs).total_sources = (normalizeResults q rs).sources.length ∧
    (normalizeResults q rs).total_chunks = (normalizeResults q rs).chunks.length ∧
    (normalizeResults q rs).total_sources = rs.length ∧
    (normalizeResults q rs).total_chunks = rs.countP (fun r => truthy r.snippet) := by
  refine ⟨rfl, rfl, by simp [normalizeResults], ?_⟩
  simpa [normalizeResults] using length_chunks_countP rs

/-- C3 (counterexample): the bundle returned by `search_perplexity`
(`perplexity_search.py` lines 165–171) contains no `total_sources` and no
`total_chunks` key, already on the empty result sequence. -/
theorem sdkReturn_lacks_total_counts :
    getKey (sdkReturn "python" []) "total_sources" = none ∧
    getKey (sdkReturn "python" []) "total_chunks" = none := by
  exact ⟨rfl, rfl⟩

/-- C4: in both the source dict and the result-item dict of `search_web`,
`title` resolves to the raw title when the key is present and to the
literal `"Untitled"` otherwise, and `url` resolves to the raw url when
present and to `""` otherwise. -/
theorem title_url_defaulting (r : RawResult) :
    getKey (mkSource r) "title" = some (JVal.str (r.title.getD "Untitled")) ∧
    getKey (mkSource r) "url" = some (JVal.str (r.url.getD "")) ∧
    getKey (mkResultItem r) "title" = some (JVal.str (r.title.getD "Untitled")) ∧
    getKey (mkResultItem r) "url" = some (JVal.str (r.url.getD "")) :=
  ⟨rfl, rfl, rfl, rfl⟩

/-- C5: the resolved date is the raw `date` field when truthy, else the raw
`last_updated` field when truthy, else absent; in particular `date` wins
when both are truthy, and `last_updated` alone resolves to itself. -/
theorem date_resolution_priority (r : RawResult) :
    getKey (mkSource r) "date"
      = (if truthy r.date then Option.map JVal.str r.date
         else if truthy r.last_updated then Option.map JVal.str r.last_updated
         else none) ∧
    getKey (mkSource ⟨some "Example", some "u", none,
        some "2024-01-01", some "2023-06-01"⟩) "date"
      = some (JVal.str "2024-01-01") ∧
    getKey (mkSource ⟨some "Example", some "u", none,
        none, some "2023-06-01"⟩) "date"
      = some (JVal.str "2023-06-01") := by
  refine ⟨?_, rfl, rfl⟩
  rw [getKey_mkSource_date]
  rcases r with ⟨t, u, sn, d, lu⟩
  cases d with
  | none =>
    cases lu with
    | none => simp [pyOr, truthy]
    | some s2 => by_cases hs2 : s2 = "" <;> simp [pyOr, truthy, hs2, jOfOpt]
  | some s =>
    by_cases hs : s = ""
    · cases lu with
      | none => simp [pyOr, truthy, hs]
      | some s2 => by_cases hs2 : s2 = "" <;> simp [pyOr, truthy, hs, hs2, jOfOpt]
    · simp [pyOr, truthy, hs, jOfOpt]

/-- C6 (amended): when neither the `date` nor the `last_updated` field is
truthy, the source dict omits the `date` key entirely, while the
result-item dict contains the `date` key with the falsy resolved value:
`null` when `last_updated` is absent, and the empty string when
`last_updated` is present but empty. -/
theorem absent_date_representations (r : RawResult)
    (h1 : truthy r.date = false) (h2 : truthy r.last_updated = false) :
    getKey (mkSource r) "date" = none ∧
    getKey (mkResultItem r) "date" = some (jOfOpt r.last_updated) := by
  have hp : pyOr r.date r.last_updated = r.last_updated := by simp [pyOr, h1]
  constructor
  · rw [getKey_mkSource_date, hp, h2]
    rfl
  · have hbase : getKey (mkResultItem r) "date"
        = some (jOfOpt (pyOr r.date r.last_updated)) := rfl
    rw [hbase, hp]

/-- C6 (witness for the amended theorem): a raw result with no date fields
at all has the `date` key missing from its source dict and set to `null`
in its result-item dict. -/
theorem absent_date_representations_witness :
    getKey (mkSource ⟨some "t", some "u", none, none, none⟩) "date" = none ∧
    getKey (mkResultItem ⟨some "t", some "u", none, none, none⟩) "date"
      = some (jOfOpt none) :=
  absent_date_representations ⟨some "t", some "u", none, none, none⟩ rfl rfl

/-- C6 (counterexample): a raw result whose `last_updated` is present but
empty has no truthy date field, yet its result-item dict carries
`date: ""` — the empty string, not `null` as the claim states. -/
theorem resultItem_date_empty_string_not_null :
    truthy (RawResult.date ⟨none, none, none, none, some ""⟩) = false ∧
    truthy (RawResult.last_updated ⟨none, none, none, none, some ""⟩) = false ∧
    getKey (mkResultItem ⟨none, none, none, none, some ""⟩) "date"
      = some (JVal.str "") ∧
    JVal.str "" ≠ JVal.null :=
  ⟨rfl, rfl, rfl, fun h => JVal.noConfusion h⟩

/-- C7: the result-item dict carries `chunk_length` (character count) and
`chunk_tokens` (whitespace-token count) exactly when the snippet is truthy
(`"hello world foo"` gives 15 and 3), and its `chunk` value is the snippet
text, serialized as `null` when the snippet is absent. -/
theorem resultItem_chunk_metrics (r : RawResult) :
    getKey (mkResultItem r) "chunk" = some (jOfOpt r.snippet) ∧
    getKey (mkResultItem r) "chunk_length"
      = (if truthy r.snippet
          then some (JVal.num ((r.snippet.getD "").length)) else none) ∧
    getKey (mkResultItem r) "chunk_tokens"
      = (if truthy r.snippet
          then some (JVal.num (chunkTokens (r.snippet.getD ""))) else none) ∧
    jOfOpt (none : Option String) = JVal.null ∧
    "hello world foo".length = 15 ∧ chunkTokens "hello world foo" = 3 := by
  refine ⟨rfl, ?_, ?_, rfl, rfl, rfl⟩ <;>
    cases h : truthy r.snippet <;> simp only [mkResultItem, h] <;> rfl

/-- C8: when the credential is falsy (unset or empty environment variable),
`search_web` fails with the configuration error message, with the same
outcome for every transport collaborator — the transport is never
consulted. -/
theorem missing_api_key_fails_fast (api_key : Option String)
    (h : truthy api_key = false) (q : String) (max_results : Nat)
    (max_tokens : Option Nat) (max_tokens_per_page : Nat)
    (search_domain_filter : Option (List String))
    (search_recency_filter : Option String)
    (t : List (String × JVal) → TransportOutcome) :
    search_web api_key q max_results max_tokens max_tokens_per_page
        search_domain_filter search_recency_filter t
      = Except.error configErrorMsg := by
  simp [search_web, h]

/-- C8 (witness): with the key absent and a stub transport that would
return a successful payload, the call still fails with the configuration
error. -/
theorem missing_api_key_fails_fast_witness :
    search_web none "query" 10 none 2048 none none
        (fun _ => TransportOutcome.success [])
      = Except.error configErrorMsg :=
  missing_api_key_fails_fast none rfl "query" 10 none 2048 none none
    (fun _ => TransportOutcome.success [])

/-- C9: an upstream 404 maps to the capability-not-enabled message, every
other status raised by the transport maps to the generic message embedding
status code and body, and the two messages differ for every status code
and every body. -/
theorem upstream_status_error_mapping (code : Nat) (body : String) :
    search_web (some "key") "q" 10 none 2048 none none
        (fun _ => TransportOutcome.httpStatusError code body)
      = Except.error
          (if code == 404 then notEnabledMsg else apiErrorMsg code body) ∧
    apiErrorMsg code body ≠ notEnabledMsg := by
  refine ⟨?_, apiErrorMsg_ne_notEnabledMsg code body⟩
  cases h : code == 404 <;> simp [search_web, truthy, h]

/-- C10: every emitted chunk dict has `chunk_length >= 1` and
`chunk_tokens <= chunk_length`, and a whitespace-only snippet such as
`" "` is truthy, so it still yields a chunk dict — one with
`chunk_tokens = 0`. -/
theorem chunk_metrics_bounds (r : RawResult) (c : List (String × JVal))
    (h : mkChunk? r = some c) :
    getKey c "chunk_length" = some (JVal.num ((r.snippet.getD "").length)) ∧
    getKey c "chunk_tokens" = some (JVal.num (chunkTokens (r.snippet.getD ""))) ∧
    1 ≤ (r.snippet.getD "").length ∧
    chunkTokens (r.snippet.getD "") ≤ (r.snippet.getD "").length ∧
    getKey ((mkChunk? ⟨none, none, some " ", none, none⟩).getD []) "chunk_tokens"
      = some (JVal.num 0) ∧
    (mkChunk? ⟨none, none, some " ", none, none⟩).isSome = true := by
  have ht : truthy r.snippet = true := by
    by_contra hf
    rw [Bool.not_eq_true] at hf
    simp [mkChunk?, hf] at h
  obtain ⟨s, hs⟩ : ∃ s, r.snippet = some s := by
    cases hv : r.snippet with
    | none => rw [hv] at ht; exact absurd ht (by simp [truthy])
    | some s => exact ⟨s, rfl⟩
  have hne : s ≠ "" := by
    rw [hs] at ht
    simpa [truthy] using ht
  simp only [mkChunk?, ht, if_true] at h
  have hc : c = [("title", JVal.str (r.title.getD "Untitled")),
      ("url", JVal.str (r.url.getD "")),
      ("source", JVal.str (r.url.getD "")),
      ("chunk", JVal.str (r.snippet.getD "")),
      ("chunk_length", JVal.num ((r.snippet.getD "").length)),
      ("chunk_tokens", JVal.num (chunkTokens (r.snippet.getD "")))]
      ++ (if truthy (pyOr r.date r.last_updated)
          then [("date", jOfOpt (pyOr r.date r.last_updated))] else []) := by
    exact (Option.some.injEq _ _ ▸ h).symm
  subst hc
  refine ⟨rfl, rfl, ?_, ?_, rfl, rfl⟩
  · rw [hs]
    exact one_le_length_of_ne_empty s hne
  · exact chunkTokens_le_length _

/-- C10 (witness): the chunk dict of a raw result with snippet
`"hello world foo"` satisfies the bounds. -/
theorem chunk_metrics_bounds_witness :
    1 ≤ ((some "hello world foo" : Option String).getD "").length ∧
    chunkTokens ((some "hello world foo" : Option String).getD "")
      ≤ ((some "hello world foo" : Option String).getD "").length :=
  ⟨(chunk_metrics_bounds ⟨none, none, some "hello world foo", none, none⟩
      ((mkChunk? ⟨none, none, some "hello world foo", none, none⟩).getD []) rfl).2.2.1,
   (chunk_metrics_bounds ⟨none, none, some "hello world foo", none, none⟩
      ((mkChunk? ⟨none, none, some "hello world foo", none, none⟩).getD []) rfl).2.2.2.1⟩
